import Mathlib

/-!
Shallow embedding of src/gpt.py: a single-endpoint proxy service that
receives a framed request over a socket, dispatches it through a command
registry, optionally calls an external chat-completion backend, and sends
a framed reply.  Python strings are Lean Strings; Python dictionaries with
a fixed key set become structures with Option fields (absent key = none);
Python truthiness of a string is nonemptiness, of an Option-dict it is
presence with at least one key; raised exceptions become the error side of
Except.  The external backend (openai.ChatCompletion.create) is an
abstract function parameter, as the spec treats it as a black box that
returns a reply or fails.
-/

namespace Gpt

/-- Message value from gpt.py (class Message): a role string and a text.
Equality is componentwise, matching the pure-value-object reading. -/
structure Message where
  role : String
  text : String
deriving DecidableEq

/-- SystemMessage(text) from gpt.py: role fixed to "system". -/
def SystemMessage (text : String) : Message := ⟨"system", text⟩

/-- UserMessage(text) from gpt.py: role fixed to "user". -/
def UserMessage (text : String) : Message := ⟨"user", text⟩

/-- AssistantMessage(text) from gpt.py: role fixed to "assistant". -/
def AssistantMessage (text : String) : Message := ⟨"assistant", text⟩

/-- Message.to_dictionary from gpt.py: the two-key dictionary sent to the
backend; it is in bijection with Message, so the backend abstraction
below consumes Messages directly. -/
def Message.to_dictionary (m : Message) : List (String × String) :=
  [("role", m.role), ("content", m.text)]

/-- The error taxonomy of gpt.py as raised by the handlers:
ProtocolException, ValueError (raised by build_message for a bad role),
RuntimeError, and UnknownCommandException (which stores the command and
formats its message as "unknown command " ++ command). -/
inductive GptError where
  | protocolException (message : String)
  | valueError (message : String)
  | runtimeError (message : String)
  | unknownCommand (command : String)
deriving DecidableEq

/-- The Python str(e) of each exception: ProtocolException, ValueError and
RuntimeError carry their message; UnknownCommandException.__init__ passes
"unknown command " ++ command to the superclass. -/
def GptError.message : GptError → String
  | GptError.protocolException m => m
  | GptError.valueError m => m
  | GptError.runtimeError m => m
  | GptError.unknownCommand c => "unknown command " ++ c

/-- build_message from gpt.py: dispatches on the role string, returning
the matching subclass instance, or raising ValueError for any other
role. -/
def build_message (role : String) (content : String) : Except GptError Message :=
  if role = "system" then Except.ok (SystemMessage content)
  else if role = "user" then Except.ok (UserMessage content)
  else if role = "assistant" then Except.ok (AssistantMessage content)
  else Except.error (GptError.valueError ("Invalid role: " ++ role))

/-- The message dictionary inside a backend choice: keys "role" and
"content", each possibly absent (none) or present. -/
structure ChoiceMessage where
  role : Option String
  content : Option String
deriving DecidableEq

/-- One element of the backend reply's "choices" list: keys
"finish_reason" and "message", each possibly absent. -/
structure Choice where
  finish_reason : Option String
  message : Option ChoiceMessage
deriving DecidableEq

/-- The backend reply dictionary: the "choices" key, possibly absent. -/
structure BackendReply where
  choices : Option (List Choice)
deriving DecidableEq

/-- Python truthiness of choice.get(key) for a string-valued key: false
when the key is absent (None) or the string is empty. -/
def truthyStr : Option String → Bool
  | none => false
  | some s => !s.isEmpty

/-- Python truthiness of choice.get("message"): false when the key is
absent (None) or the dictionary is empty (has no keys at all). -/
def truthyMsg : Option ChoiceMessage → Bool
  | none => false
  | some m => m.role.isSome || m.content.isSome

/-- The role field read from a choice's message dictionary (none when the
message itself is absent; only consulted after the truthiness check). -/
def roleOf (c : Choice) : Option String := (c.message.getD ⟨none, none⟩).role

/-- The content field read from a choice's message dictionary. -/
def contentOf (c : Choice) : Option String := (c.message.getD ⟨none, none⟩).content

/-- An item appended to the response list inside __send_impl: either the
finish_reason string of a choice or the decoded Message. -/
inductive ResponseItem where
  | str (s : String)
  | msg (m : Message)
deriving DecidableEq

/-- The body of the per-choice validation in __send_impl (gpt.py lines
214 to 226): check the message dictionary is truthy, check finish_reason,
role and content are truthy, then append the finish_reason and the built
Message; otherwise raise ProtocolException with the source's message. -/
def processChoice (choice : Choice) : Except GptError (List ResponseItem) :=
  if truthyMsg choice.message then
    if truthyStr choice.finish_reason && truthyStr (roleOf choice) && truthyStr (contentOf choice) then
      match build_message ((roleOf choice).getD "") ((contentOf choice).getD "") with
      | Except.ok m =>
          Except.ok [ResponseItem.str (choice.finish_reason.getD ""), ResponseItem.msg m]
      | Except.error e => Except.error e
    else
      Except.error (GptError.protocolException "missing or empty: finish_reason, role or content")
  else
    Except.error (GptError.protocolException "missing or empty message")

/-- The for-loop of __send_impl over the choices list: the first raising
choice aborts the whole call, earlier appended items are discarded. -/
def processChoices : List Choice → Except GptError (List ResponseItem)
  | [] => Except.ok []
  | c :: rest =>
    match processChoice c with
    | Except.error e => Except.error e
    | Except.ok items =>
      match processChoices rest with
      | Except.error e => Except.error e
      | Except.ok restItems => Except.ok (items ++ restItems)

/-- The validation and decoding portion of __send_impl, applied to the
dictionary the backend returned: the choices key must be present and
nonempty (Python: if choices and len(choices) > 0), otherwise
ProtocolException; then each choice is processed in order. -/
def decode_backend_reply (reply : BackendReply) : Except GptError (List ResponseItem) :=
  match reply.choices with
  | some choices =>
    if choices.length > 0 then processChoices choices
    else Except.error (GptError.protocolException "choices key missing or empty")
  | none => Except.error (GptError.protocolException "choices key missing or empty")

/-- The external backend abstraction: given the ordered message list that
__send_impl submits (system message first), it returns a reply dictionary
or fails (any exception the openai call raises propagates to the service
loop, so a failure is carried as a GptError whose message is str(e)). -/
abbrev Backend := List Message → Except GptError BackendReply

/-- __send_impl from gpt.py: submit [system_message] ++ messages to the
backend as a single synchronous request and validate/decode the reply. -/
def send_impl (backend : Backend) (system_message : Message)
    (messages : List Message) : Except GptError (List ResponseItem) :=
  match backend (system_message :: messages) with
  | Except.error e => Except.error e
  | Except.ok reply => decode_backend_reply reply

/-- The enumerate loop of send (gpt.py lines 190 to 194), carrying the
running index: even index makes a UserMessage, odd an AssistantMessage. -/
def tagTurnsFrom (i : Nat) : List String → List Message
  | [] => []
  | t :: rest =>
    (if i % 2 = 0 then UserMessage t else AssistantMessage t) :: tagTurnsFrom (i + 1) rest

/-- The turn messages built by send from arguments[1:], indices starting
at 0. -/
def tagTurns (turns : List String) : List Message := tagTurnsFrom 0 turns

/-- The full ordered message list submitted to the backend for a given
argument list: SystemMessage(arguments[0]) followed by the alternately
tagged turns.  Only invoked by send when arguments has length at least
two, so the headD default is never consulted there. -/
def conversationFor (arguments : List String) : List Message :=
  SystemMessage (arguments.headD "") :: tagTurns arguments.tail

/-- The flattening loop of send over the response items: a Message
contributes its role then its text, a bare string contributes itself. -/
def flattenResponse : List ResponseItem → List String
  | [] => []
  | ResponseItem.str s :: rest => s :: flattenResponse rest
  | ResponseItem.msg m :: rest => m.role :: m.text :: flattenResponse rest

deriving instance DecidableEq for Except

/-- The outcome of the send handler: the returned string list or the
raised error, together with whether the external backend was invoked
(the backend call on the short-argument branch is unreachable). -/
structure SendOutcome where
  result : Except GptError (List String)
  backend_called : Bool
deriving DecidableEq

/-- send from gpt.py: fewer than two arguments raises ProtocolException
before any backend interaction; otherwise the tagged conversation is
submitted via __send_impl and the response items are flattened. -/
def send (backend : Backend) (arguments : List String) : SendOutcome :=
  if arguments.length < 2 then
    ⟨Except.error (GptError.protocolException "Expect at least system and user messages."), false⟩
  else
    match send_impl backend (SystemMessage (arguments.headD "")) (tagTurns arguments.tail) with
    | Except.error e => ⟨Except.error e, true⟩
    | Except.ok response => ⟨Except.ok (flattenResponse response), true⟩

/-- Timeout.DEFAULT.value from gpt.py. -/
def Timeout.DEFAULT : Nat := 300

/-- Timeout.LONG.value from gpt.py. -/
def Timeout.LONG : Nat := 30000

/-- The metadata dictionary attached to a registry entry: a description
string and a timeout value. -/
structure CommandMetadata where
  description : String
  timeout : Nat
deriving DecidableEq

/-- A tag identifying which handler function a registry entry carries;
the handlers themselves are dispatched by run_handler below. -/
inductive HandlerTag where
  | help_handler
  | metadata_handler
  | send_handler
deriving DecidableEq

/-- One entry of the command_map dictionary: its key, its handler and its
metadata dictionary (every entry of the source carries a metadata
dictionary, so the RuntimeError branch of __metadata_impl for missing
metadata is unreachable and not modelled). -/
structure CommandEntry where
  name : String
  tag : HandlerTag
  metadata : CommandMetadata
deriving DecidableEq

/-- command_map from gpt.py, in insertion order (Python dictionaries
preserve it, so list(command_map().keys()) follows this order). -/
def command_map : List CommandEntry :=
  [⟨"help", HandlerTag.help_handler, ⟨"Lists available service commands.", Timeout.DEFAULT⟩⟩,
   ⟨"metadata", HandlerTag.metadata_handler, ⟨"Describes the given command.", Timeout.DEFAULT⟩⟩,
   ⟨"send", HandlerTag.send_handler, ⟨"Sends a chat completion request to the OpenAI service.", Timeout.LONG⟩⟩]

/-- command_map().get(name) from gpt.py. -/
def lookup_command (name : String) : Option CommandEntry :=
  command_map.find? (fun e => e.name == name)

/-- list_commands from gpt.py: ignores its arguments and returns
list(command_map().keys()). -/
def list_commands (_arguments : List String) : List String :=
  command_map.map (fun e => e.name)

/-- json.dumps of a metadata dictionary with keys in insertion order
(description first, then timeout), using the default separators. -/
def json_dumps_metadata (m : CommandMetadata) : String :=
  "\x7b\"description\": \"" ++ m.description ++ "\", \"timeout\": " ++ toString m.timeout ++ "\x7d"

/-- __metadata_impl from gpt.py: looks the name up in command_map and
returns the entry's metadata.  On a failed lookup the source raises
UnknownCommandException(command) where command is the None that the
lookup returned, so the stored command string is "None". -/
def metadata_impl (function_name : String) : Except GptError CommandMetadata :=
  match lookup_command function_name with
  | some command => Except.ok command.metadata
  | none => Except.error (GptError.unknownCommand "None")

/-- The list comprehension of metadata: json.dumps(__metadata_impl(c))
for each requested name left to right, the first raising name aborting
the whole call. -/
def map_metadata : List String → Except GptError (List String)
  | [] => Except.ok []
  | c :: rest =>
    match metadata_impl c with
    | Except.error e => Except.error e
    | Except.ok m =>
      match map_metadata rest with
      | Except.error e => Except.error e
      | Except.ok restJson => Except.ok (json_dumps_metadata m :: restJson)

/-- metadata from gpt.py: with at least one argument, the per-name JSON
strings; with none, ValueError. -/
def metadata (arguments : List String) : Except GptError (List String) :=
  if arguments.length > 0 then map_metadata arguments
  else Except.error (GptError.valueError "Expected one or more commands as arguments")

/-- Dispatches a registry entry's handler exactly as command_map wires
them: help to list_commands (which never raises), metadata to metadata,
send to send. -/
def run_handler (backend : Backend) : HandlerTag → List String → Except GptError (List String)
  | HandlerTag.help_handler, args => Except.ok (list_commands args)
  | HandlerTag.metadata_handler, args => metadata args
  | HandlerTag.send_handler, args => (send backend args).result

/-- The dispatch portion of the service loop body (gpt.py lines 294 to
309): look the command up in command_map and run its handler, or raise
UnknownCommandException whose stored command string is the formatted
"unknown command " ++ command (the source passes the already formatted
string as the command argument). -/
def dispatch (backend : Backend) (command : String) (args : List String) :
    Except GptError (List String) :=
  match lookup_command command with
  | some info => run_handler backend info.tag args
  | none => Except.error (GptError.unknownCommand ("unknown command " ++ command))

/-- ErrorCode.UNKNOWN_COMMAND.value from gpt.py. -/
def ErrorCode.UNKNOWN_COMMAND : String := "ERROR_UNKNOWN_COMMAND"

/-- ErrorCode.UNCATEGORISED.value from gpt.py. -/
def ErrorCode.UNCATEGORISED : String := "ERROR_UNCATEGORISED"

/-- A reply frame: ok replies carry the handler's result strings, error
replies an error code and a message. -/
inductive Reply where
  | ok (results : List String)
  | error (code : String) (message : String)
deriving DecidableEq

/-- The wire encoding of a reply: the ok function of gpt.py sends
["OK"] ++ results, the error function sends ["ERROR", code, message]. -/
def Reply.toWire : Reply → List String
  | Reply.ok results => "OK" :: results
  | Reply.error code message => ["ERROR", code, message]

/-- The reply the service loop body produces for one received frame:
an empty frame makes message[0] raise IndexError, caught by the generic
handler; an UnknownCommandException is answered with the dedicated code
and the hardcoded message "unknown command" (gpt.py line 319); every
other exception is answered with the uncategorised code and str(e). -/
def replyFor (backend : Backend) (frame : List String) : Reply :=
  match frame with
  | [] => Reply.error ErrorCode.UNCATEGORISED "list index out of range"
  | command :: args =>
    match dispatch backend command args with
    | Except.ok results => Reply.ok results
    | Except.error (GptError.unknownCommand _) =>
        Reply.error ErrorCode.UNKNOWN_COMMAND "unknown command"
    | Except.error e => Reply.error ErrorCode.UNCATEGORISED e.message

/-- The two-valued session mode of gpt.py (class State). -/
inductive State where
  | SENDING
  | RECEIVING
deriving DecidableEq

/-- The initial mode set just before the service loop (gpt.py line 277). -/
def initial_state : State := State.RECEIVING

/-- A socket operation the loop performs: recv_multipart or
send_multipart. -/
inductive TransportOp where
  | receive
  | transmit
deriving DecidableEq

/-- Outcome of one pass of the while loop: either a reply was sent and
the loop continues in the given mode, or a StateException escaped and
the process exits with a non-zero status. -/
inductive IterResult where
  | replied (reply : Reply) (next : State)
  | fatal (st : State)
deriving DecidableEq

/-- One pass of the service loop of main (gpt.py lines 279 to 332) on one
incoming frame.  The trace records each socket operation together with
the mode in which it was performed.  In mode RECEIVING the frame is
received and the mode set to SENDING; the reply (success or error) is
computed, and sent only after the mode is checked to be SENDING, flipping
it back to RECEIVING.  Entering the pass in SENDING makes the receive
check raise StateException, which the loop catches and turns into
exit(1). -/
def loopIter (backend : Backend) (st : State) (frame : List String) :
    List (TransportOp × State) × IterResult :=
  match st with
  | State.SENDING => ([], IterResult.fatal State.SENDING)
  | State.RECEIVING =>
    let afterRecv := State.SENDING
    let reply := replyFor backend frame
    if afterRecv = State.SENDING then
      ([(TransportOp.receive, State.RECEIVING), (TransportOp.transmit, afterRecv)],
       IterResult.replied reply State.RECEIVING)
    else
      ([(TransportOp.receive, State.RECEIVING)], IterResult.fatal afterRecv)

/-- Runs the service loop over a finite prefix of incoming frames (the
while-True loop observed until interruption), accumulating the operation
trace; a fatal pass ends the run with no final mode. -/
def runLoop (backend : Backend) : State → List (List String) →
    List (TransportOp × State) × Option State
  | st, [] => ([], some st)
  | st, frame :: rest =>
    match loopIter backend st frame with
    | (ops, IterResult.replied _ next) =>
      let r := runLoop backend next rest
      (ops ++ r.1, r.2)
    | (ops, IterResult.fatal _) => (ops, none)

/-- No two adjacent operations in the list are equal. -/
def alternates : List TransportOp → Bool
  | [] => true
  | [_] => true
  | a :: b :: rest => (a != b) && alternates (b :: rest)

/-- A recorded operation was performed in its legal mode: receives in
RECEIVING, sends in SENDING. -/
def legalOp (p : TransportOp × State) : Bool :=
  match p.1 with
  | TransportOp.receive => p.2 == State.RECEIVING
  | TransportOp.transmit => p.2 == State.SENDING

/-- Every recorded operation was performed in its legal mode. -/
def opsLegal (trace : List (TransportOp × State)) : Bool :=
  trace.all legalOp

/-- The trace a run of n passes from RECEIVING produces: receive in
RECEIVING then transmit in SENDING, n times over. -/
def idealTrace : Nat → List (TransportOp × State)
  | 0 => []
  | n + 1 =>
    (TransportOp.receive, State.RECEIVING) :: (TransportOp.transmit, State.SENDING) :: idealTrace n

/-- Whether an Except value is the ok case. -/
def exceptOk {α : Type} : Except GptError α → Bool
  | Except.ok _ => true
  | Except.error _ => false

/-- Whether a decoded result failed specifically with ProtocolException,
the class the spec calls MalformedBackendReply. -/
def failsWithProtocol : Except GptError (List ResponseItem) → Bool
  | Except.error (GptError.protocolException _) => true
  | _ => false

/-- Whether a decoded result failed specifically with the ValueError that
build_message raises, the class the spec calls InvalidRole. -/
def failsWithInvalidRole : Except GptError (List ResponseItem) → Bool
  | Except.error (GptError.valueError _) => true
  | _ => false

/-- Whether a choice's role field (as read through the truthiness-guarded
path) is one of the three strings build_message recognizes. -/
def roleRecognized (c : Choice) : Bool :=
  (roleOf c).getD "" == "system" || (roleOf c).getD "" == "user" ||
  (roleOf c).getD "" == "assistant"

/-- A choice that passes every check on the ok path of the per-choice
validation: truthy message dictionary, truthy finish_reason, role and
content, and a role that build_message recognizes. -/
def validChoice (c : Choice) : Bool :=
  truthyMsg c.message &&
  truthyStr c.finish_reason &&
  truthyStr (roleOf c) &&
  truthyStr (contentOf c) &&
  ((roleOf c).getD "" == "system" || (roleOf c).getD "" == "user" ||
   (roleOf c).getD "" == "assistant")

/-- A choice carrying one of the defects the spec calls
MalformedBackendReply: message absent or empty, or finish_reason, role or
content absent or empty. -/
def choiceDefect (c : Choice) : Bool :=
  !truthyMsg c.message || !truthyStr c.finish_reason ||
  !truthyStr (roleOf c) || !truthyStr (contentOf c)

/-- A backend reply that is malformed in one of the ways the spec lists:
choices absent or empty, or some choice defective. -/
def malformedReply (r : BackendReply) : Bool :=
  match r.choices with
  | none => true
  | some cs => cs.isEmpty || cs.any choiceDefect

/-- Scanning the choices in validation order, whether the first choice
that fails validation fails on a missing or empty field (true) rather
than on an unrecognized nonempty role handed to build_message (false);
choices that validate completely are skipped.  Only consulted when some
failure exists. -/
def firstFailureIsDefect : List Choice → Bool
  | [] => false
  | c :: rest =>
    if choiceDefect c then true
    else if roleRecognized c then firstFailureIsDefect rest
    else false

/-- The ProtocolException message the per-choice loop raises for the
first defective choice, scanning in validation order past fully valid
choices: the message-object check fires before the field check, exactly
as in __send_impl. -/
def firstChoiceFailureMessage : List Choice → String
  | [] => ""
  | c :: rest =>
    if !truthyMsg c.message then "missing or empty message"
    else if choiceDefect c then "missing or empty: finish_reason, role or content"
    else firstChoiceFailureMessage rest

/-- Whether the first malformation of a reply met in validation order is
a missing or empty field (choices absent or empty counts as such), as
opposed to an unrecognized nonempty role reached first. -/
def firstMalformedIsField (r : BackendReply) : Bool :=
  match r.choices with
  | none => true
  | some cs => cs.isEmpty || firstFailureIsDefect cs

/-- The ProtocolException message naming the first missing piece of a
malformed reply, in validation order. -/
def firstFailureMessage (r : BackendReply) : String :=
  match r.choices with
  | none => "choices key missing or empty"
  | some cs =>
    if cs.isEmpty then "choices key missing or empty" else firstChoiceFailureMessage cs

/-- The two response items a valid choice contributes. -/
def choiceItems (c : Choice) : List ResponseItem :=
  [ResponseItem.str (c.finish_reason.getD ""),
   ResponseItem.msg ⟨(roleOf c).getD "", (contentOf c).getD ""⟩]

/-- The three wire strings a valid choice contributes after flattening:
finish_reason, role, text. -/
def choiceTriple (c : Choice) : List String :=
  [c.finish_reason.getD "", (roleOf c).getD "", (contentOf c).getD ""]

/-- The single backend choice of the spec's Scenario 1. -/
def scenario_choices : List Choice :=
  [⟨some "stop", some ⟨some "assistant", some "Hi."⟩⟩]

/-- A backend that answers every request with the Scenario 1 choice. -/
def scenario_backend : Backend := fun _ => Except.ok ⟨some scenario_choices⟩

/-- A backend that answers every request with a reply lacking the
choices key; requests that never reach the backend do not depend on it. -/
def backend0 : Backend := fun _ => Except.ok ⟨none⟩

/-- A backend reply whose first choice carries an unrecognized role and
whose second choice lacks its message dictionary. -/
def mixed_reply : BackendReply :=
  ⟨some [⟨some "stop", some ⟨some "robot", some "Hi."⟩⟩, ⟨some "stop", none⟩]⟩

/-- Fallback entry for Option.getD on registry lookups that are known to
succeed. -/
def default_entry : CommandEntry := ⟨"", HandlerTag.help_handler, ⟨"", 0⟩⟩

/-- The JSON string the metadata command reports for a registered name. -/
def describeName (n : String) : String :=
  json_dumps_metadata (((lookup_command n).getD default_entry).metadata)

/-- Whether a reply frame is an error reply. -/
def Reply.isError : Reply → Bool
  | Reply.ok _ => false
  | Reply.error _ _ => true

/-! ## Theorems -/

/-- C6: build_message round-trips every recognized role with its text,
and fails with the InvalidRole-class ValueError on every other role
string, producing no Message. -/
theorem build_message_roles (role text : String) :
    ((role = "system" ∨ role = "user" ∨ role = "assistant") →
      build_message role text = Except.ok (Message.mk role text)) ∧
    (role ≠ "system" → role ≠ "user" → role ≠ "assistant" →
      build_message role text =
        Except.error (GptError.valueError ("Invalid role: " ++ role))) := by
  constructor
  · rintro (rfl | rfl | rfl) <;> rfl
  · intro h1 h2 h3
    simp [build_message, h1, h2, h3]

/-- Witness for C6 at the concrete roles "assistant" and "robot". -/
theorem build_message_roles_witness :
    build_message "assistant" "Hi." = Except.ok (Message.mk "assistant" "Hi.") ∧
    build_message "robot" "Hi." =
      Except.error (GptError.valueError ("Invalid role: " ++ "robot")) :=
  ⟨(build_message_roles "assistant" "Hi.").1 (Or.inr (Or.inr rfl)),
   (build_message_roles "robot" "Hi.").2 (by decide) (by decide) (by decide)⟩

/-- Index lemma for the tagging loop of send: position i of the result of
tagTurnsFrom k holds the i-th turn tagged by the parity of k + i. -/
theorem tagTurnsFrom_get? (k : Nat) (turns : List String) (i : Nat) :
    (tagTurnsFrom k turns).get? i =
      (turns.get? i).map
        (fun t => if (k + i) % 2 = 0 then UserMessage t else AssistantMessage t) := by
  induction turns generalizing k i with
  | nil => simp [tagTurnsFrom]
  | cons t rest ih =>
    cases i with
    | zero => simp [tagTurnsFrom]
    | succ j =>
      have harith : k + (j + 1) = (k + 1) + j := by omega
      simpa [tagTurnsFrom, harith] using ih (k + 1) j

/-- C4: for every argument list, the submitted conversation starts with
the system message built from the first argument, and the turn at
0-indexed position i of the remaining arguments is tagged user when i is
even and assistant when i is odd, for every number of turns. -/
theorem turn_role_alternation (args : List String) (i : Nat) (t : String)
    (h : args.tail.get? i = some t) :
    (conversationFor args).get? 0 = some (SystemMessage (args.headD "")) ∧
    (conversationFor args).get? (i + 1) =
      some (if i % 2 = 0 then UserMessage t else AssistantMessage t) := by
  constructor
  · rfl
  · show (SystemMessage (args.headD "") :: tagTurns args.tail).get? (i + 1) = _
    rw [List.get?_cons_succ, tagTurns, tagTurnsFrom_get? 0 args.tail i, h]
    simp

/-- Witness for C4 at turn counts one, two and five. -/
theorem turn_role_alternation_witness :
    (conversationFor ["s", "u1"]).get? 1 = some (UserMessage "u1") ∧
    (conversationFor ["s", "u1", "a1"]).get? 2 = some (AssistantMessage "a1") ∧
    (conversationFor ["s", "t0", "t1", "t2", "t3", "t4"]).get? 5 =
      some (UserMessage "t4") :=
  ⟨(turn_role_alternation ["s", "u1"] 0 "u1" rfl).2,
   (turn_role_alternation ["s", "u1", "a1"] 1 "a1" rfl).2,
   (turn_role_alternation ["s", "t0", "t1", "t2", "t3", "t4"] 4 "t4" rfl).2⟩

/-- C10 (implicit): the help handler ignores its arguments, so a help
request with extraneous arguments succeeds with the same full command
list as a bare help request. -/
theorem help_ignores_arguments (backend : Backend) (args : List String) :
    list_commands args = list_commands [] ∧
    replyFor backend ("help" :: args) = Reply.ok (list_commands args) :=
  ⟨rfl, rfl⟩

/-- C8 counterexample: the actual help reply lists the registration name
"send", and the name "complete" claimed by the spec scenario is not among
the result parts, so the result is not set-equal to the claimed set. -/
theorem help_lists_send_counterexample :
    replyFor backend0 ["help"] = Reply.ok ["help", "metadata", "send"] ∧
    ¬ ("complete" ∈ list_commands []) := by
  constructor
  · rfl
  · decide

/-- C8 (amended): the help command succeeds and its result is exactly the
registered command names in registration order, namely help, metadata and
send. -/
theorem help_lists_registered_names (backend : Backend) :
    replyFor backend ["help"] = Reply.ok (command_map.map (fun e => e.name)) ∧
    command_map.map (fun e => e.name) = ["help", "metadata", "send"] :=
  ⟨rfl, rfl⟩

/-- C7 counterexample: the reply to the request naming the absent command
bogus carries the fixed message "unknown command", not a message naming
the requested command. -/
theorem unknown_command_message_counterexample :
    replyFor backend0 ["bogus"] =
      Reply.error "ERROR_UNKNOWN_COMMAND" "unknown command" ∧
    Reply.error "ERROR_UNKNOWN_COMMAND" "unknown command" ≠
      Reply.error "ERROR_UNKNOWN_COMMAND" "unknown command bogus" := by
  constructor
  · rfl
  · decide

/-- C7 (amended): a request naming a command absent from the registry is
answered with the dedicated unknown-command error code and the fixed
message "unknown command" (which does not name the requested command),
and the loop continues to the next request in RECEIVING mode. -/
theorem unknown_command_reply (backend : Backend) :
    replyFor backend ["bogus"] =
      Reply.error ErrorCode.UNKNOWN_COMMAND "unknown command" ∧
    loopIter backend State.RECEIVING ["bogus"] =
      ([(TransportOp.receive, State.RECEIVING), (TransportOp.transmit, State.SENDING)],
       IterResult.replied (Reply.error ErrorCode.UNKNOWN_COMMAND "unknown command")
         State.RECEIVING) :=
  ⟨rfl, rfl⟩

/-- Dispatch on the send command runs the send handler. -/
theorem dispatch_send (backend : Backend) (args : List String) :
    dispatch backend "send" args = (send backend args).result := rfl

/-- C5: every send request with fewer than two arguments fails with the
ProtocolException (the InvalidArguments class of the spec) carrying the
message about system and user messages, the external backend is not
called on that branch, and the client receives an error reply. -/
theorem short_arguments_rejected (backend : Backend) (args : List String)
    (h : args.length < 2) :
    send backend args =
      ⟨Except.error (GptError.protocolException "Expect at least system and user messages."),
       false⟩ ∧
    replyFor backend ("send" :: args) =
      Reply.error ErrorCode.UNCATEGORISED "Expect at least system and user messages." := by
  have hsend : send backend args =
      ⟨Except.error (GptError.protocolException "Expect at least system and user messages."),
       false⟩ := by
    unfold send
    rw [if_pos h]
  refine ⟨hsend, ?_⟩
  show (match dispatch backend "send" args with
    | Except.ok results => Reply.ok results
    | Except.error (GptError.unknownCommand _) =>
        Reply.error ErrorCode.UNKNOWN_COMMAND "unknown command"
    | Except.error e => Reply.error ErrorCode.UNCATEGORISED e.message) =
      Reply.error ErrorCode.UNCATEGORISED "Expect at least system and user messages."
  rw [dispatch_send, hsend]
  rfl

/-- Witness for C5 at the one-argument request of the spec's Scenario 2. -/
theorem short_arguments_rejected_witness :
    send backend0 ["sys"] =
      ⟨Except.error (GptError.protocolException "Expect at least system and user messages."),
       false⟩ ∧
    replyFor backend0 ["send", "sys"] =
      Reply.error ErrorCode.UNCATEGORISED "Expect at least system and user messages." :=
  short_arguments_rejected backend0 ["sys"] (by decide)

/-- A pass of the loop entered in RECEIVING receives exactly one frame
and sends exactly one reply, each in its legal mode, and hands the next
pass the RECEIVING mode again. -/
theorem loopIter_receiving (backend : Backend) (frame : List String) :
    loopIter backend State.RECEIVING frame =
      ([(TransportOp.receive, State.RECEIVING), (TransportOp.transmit, State.SENDING)],
       IterResult.replied (replyFor backend frame) State.RECEIVING) := rfl

/-- A run started in RECEIVING produces the strictly alternating trace
and ends back in RECEIVING, never hitting the fatal StateException. -/
theorem runLoop_receiving (backend : Backend) (frames : List (List String)) :
    runLoop backend State.RECEIVING frames =
      (idealTrace frames.length, some State.RECEIVING) := by
  induction frames with
  | nil => rfl
  | cons f rest ih =>
    simp only [runLoop, loopIter_receiving, ih, List.length_cons]
    rfl

/-- Unfolding equation for alternates on two or more operations. -/
theorem alternates_cons_cons (a b : TransportOp) (rest : List TransportOp) :
    alternates (a :: b :: rest) = ((a != b) && alternates (b :: rest)) := rfl

/-- Unfolding equation for the operation sequence of the ideal trace. -/
theorem idealTrace_map_fst (n : Nat) :
    (idealTrace (n + 1)).map Prod.fst =
      TransportOp.receive :: TransportOp.transmit :: (idealTrace n).map Prod.fst := rfl

/-- The ideal trace alternates, with or without a leading transmit. -/
theorem idealTrace_alternates (n : Nat) :
    alternates ((idealTrace n).map Prod.fst) = true ∧
    alternates (TransportOp.transmit :: (idealTrace n).map Prod.fst) = true := by
  induction n with
  | zero => exact ⟨rfl, rfl⟩
  | succ m ih =>
    have hfirst : alternates ((idealTrace (m + 1)).map Prod.fst) = true := by
      rw [idealTrace_map_fst, alternates_cons_cons, ih.2]
      rfl
    refine ⟨hfirst, ?_⟩
    rw [idealTrace_map_fst, alternates_cons_cons, ← idealTrace_map_fst, hfirst]
    rfl

/-- Every operation of the ideal trace runs in its legal mode. -/
theorem idealTrace_legal (n : Nat) : opsLegal (idealTrace n) = true := by
  induction n with
  | zero => rfl
  | succ m ih =>
    show opsLegal ((TransportOp.receive, State.RECEIVING) ::
      (TransportOp.transmit, State.SENDING) :: idealTrace m) = true
    simp only [opsLegal, List.all_cons] at ih ⊢
    rw [ih]
    rfl

/-- C2: the session mode starts in RECEIVING; along every execution of
the service loop the socket-operation trace strictly alternates, so the
transport never performs two consecutive sends or two consecutive
receives; every receive is performed in RECEIVING and every send in
SENDING; and each pass returns the mode to RECEIVING (the mode flips on
every successful receive and every successful send). -/
theorem transport_turn_taking (backend : Backend) (frames : List (List String)) :
    initial_state = State.RECEIVING ∧
    alternates (((runLoop backend initial_state frames).1).map Prod.fst) = true ∧
    opsLegal (runLoop backend initial_state frames).1 = true ∧
    (runLoop backend initial_state frames).2 = some State.RECEIVING := by
  have h := runLoop_receiving backend frames
  refine ⟨rfl, ?_, ?_, ?_⟩
  · rw [show (runLoop backend initial_state frames).1 = idealTrace frames.length from by rw [initial_state, h]]
    exact (idealTrace_alternates frames.length).1
  · rw [show (runLoop backend initial_state frames).1 = idealTrace frames.length from by rw [initial_state, h]]
    exact idealTrace_legal frames.length
  · rw [initial_state, h]

/-- A choice passing every validation check is decoded into its
finish_reason string followed by its decoded message. -/
theorem processChoice_valid (c : Choice) (h : validChoice c = true) :
    processChoice c = Except.ok (choiceItems c) := by
  unfold validChoice at h
  simp only [Bool.and_eq_true, Bool.or_eq_true, beq_iff_eq] at h
  obtain ⟨⟨⟨⟨h1, h2⟩, h3⟩, h4⟩, h5⟩ := h
  unfold processChoice
  rw [if_pos h1, if_pos (by rw [h2, h3, h4]; rfl)]
  rcases h5 with (h5 | h5) | h5 <;>
    simp [build_message, h5, choiceItems, SystemMessage, UserMessage, AssistantMessage]

/-- A list of valid choices is decoded into the concatenation of the
per-choice item pairs, in backend order. -/
theorem processChoices_all_valid (cs : List Choice) (h : cs.all validChoice = true) :
    processChoices cs = Except.ok (cs.map choiceItems).flatten := by
  induction cs with
  | nil => rfl
  | cons c rest ih =>
    rw [List.all_cons, Bool.and_eq_true] at h
    unfold processChoices
    rw [processChoice_valid c h.1, ih h.2]
    simp

/-- The flattening loop distributes over concatenation. -/
theorem flattenResponse_append (xs ys : List ResponseItem) :
    flattenResponse (xs ++ ys) = flattenResponse xs ++ flattenResponse ys := by
  induction xs with
  | nil => rfl
  | cons x rest ih => cases x <;> simp [flattenResponse, ih]

/-- Flattening the decoded items of a choice list yields the per-choice
finish_reason, role, text triples in backend order. -/
theorem flatten_choiceItems (cs : List Choice) :
    flattenResponse (cs.map choiceItems).flatten = (cs.map choiceTriple).flatten := by
  induction cs with
  | nil => rfl
  | cons c rest ih =>
    simp only [List.map_cons, List.flatten_cons, flattenResponse_append, ih]
    rfl

/-- C1 (amended): for every send request whose backend reply consists of
valid choices, the handler result and the wire reply flatten the choices
to (finish_reason, role, text) triples, one triple per choice in backend
order: finish_reason is validated and included in the client-visible
result, not omitted. -/
theorem send_flattens_finish_reason_triples (backend : Backend) (args : List String)
    (cs : List Choice)
    (hlen : 2 ≤ args.length)
    (hcs : backend (conversationFor args) = Except.ok ⟨some cs⟩)
    (hne : cs ≠ [])
    (hval : cs.all validChoice = true) :
    (send backend args).result = Except.ok (cs.map choiceTriple).flatten ∧
    replyFor backend ("send" :: args) = Reply.ok (cs.map choiceTriple).flatten := by
  have himpl : send_impl backend (SystemMessage (args.headD "")) (tagTurns args.tail) =
      Except.ok (cs.map choiceItems).flatten := by
    unfold send_impl
    rw [show (SystemMessage (args.headD "") :: tagTurns args.tail) = conversationFor args
      from rfl, hcs]
    show (if cs.length > 0 then processChoices cs
      else Except.error (GptError.protocolException "choices key missing or empty")) =
      Except.ok (cs.map choiceItems).flatten
    rw [if_pos (List.length_pos.mpr hne)]
    exact processChoices_all_valid cs hval
  have hsend : send backend args = ⟨Except.ok (cs.map choiceTriple).flatten, true⟩ := by
    unfold send
    rw [if_neg (by omega), himpl]
    show SendOutcome.mk (Except.ok (flattenResponse (cs.map choiceItems).flatten)) true = _
    rw [flatten_choiceItems]
  refine ⟨by rw [hsend], ?_⟩
  show (match dispatch backend "send" args with
    | Except.ok results => Reply.ok results
    | Except.error (GptError.unknownCommand _) =>
        Reply.error ErrorCode.UNKNOWN_COMMAND "unknown command"
    | Except.error e => Reply.error ErrorCode.UNCATEGORISED e.message) =
      Reply.ok (cs.map choiceTriple).flatten
  rw [dispatch_send, hsend]

/-- Witness for C1 (amended) at the spec's Scenario 1 request and
backend choice: the wire reply carries stop, assistant, Hi. -/
theorem send_flattens_finish_reason_triples_witness :
    2 ≤ (["You are terse.", "Hello"] : List String).length ∧
    replyFor scenario_backend ["send", "You are terse.", "Hello"] =
      Reply.ok (scenario_choices.map choiceTriple).flatten :=
  ⟨by decide,
   (send_flattens_finish_reason_triples scenario_backend ["You are terse.", "Hello"]
     scenario_choices (by decide) rfl (by decide) (by decide)).2⟩

/-- C1 counterexample: at the spec's Scenario 1 input the code's wire
reply is ["OK", "stop", "assistant", "Hi."], not the claimed
["OK", "assistant", "Hi."] (finish_reason is not omitted); moreover the
command registered for completion is "send", so the claimed request
["complete", ...] is answered as an unknown command. -/
theorem complete_scenario_counterexample :
    (replyFor scenario_backend ["send", "You are terse.", "Hello"]).toWire =
      ["OK", "stop", "assistant", "Hi."] ∧
    (replyFor scenario_backend ["send", "You are terse.", "Hello"]).toWire ≠
      ["OK", "assistant", "Hi."] ∧
    (replyFor scenario_backend ["complete", "You are terse.", "Hello"]).toWire =
      ["ERROR", "ERROR_UNKNOWN_COMMAND", "unknown command"] := by
  refine ⟨rfl, ?_, rfl⟩
  decide

/-- A result that failed with the InvalidRole ValueError is not ok. -/
theorem invalid_role_not_ok (x : Except GptError (List ResponseItem))
    (h : failsWithInvalidRole x = true) : exceptOk x = false := by
  cases x with
  | ok v => simp [failsWithInvalidRole] at h
  | error e => rfl

/-- A non-defective choice passes all four truthiness checks. -/
theorem choiceDefect_false_truthy (c : Choice) (h : choiceDefect c = false) :
    truthyMsg c.message = true ∧ truthyStr c.finish_reason = true ∧
    truthyStr (roleOf c) = true ∧ truthyStr (contentOf c) = true := by
  unfold choiceDefect at h
  cases h1 : truthyMsg c.message <;> cases h2 : truthyStr c.finish_reason <;>
    cases h3 : truthyStr (roleOf c) <;> cases h4 : truthyStr (contentOf c) <;>
      simp_all

/-- A choice that is not defective and whose role is recognized passes
the whole validation. -/
theorem valid_of_not_defect (c : Choice) (hd : choiceDefect c = false)
    (hr : roleRecognized c = true) : validChoice c = true := by
  obtain ⟨h1, h2, h3, h4⟩ := choiceDefect_false_truthy c hd
  unfold roleRecognized at hr
  unfold validChoice
  rw [h1, h2, h3, h4, hr]
  rfl

/-- The exact ProtocolException of a defective choice: the message-object
check fires before the field check, as in __send_impl. -/
theorem processChoice_defect_message (c : Choice) (h : choiceDefect c = true) :
    processChoice c = Except.error (GptError.protocolException
      (if !truthyMsg c.message then "missing or empty message"
       else "missing or empty: finish_reason, role or content")) := by
  unfold choiceDefect at h
  unfold processChoice
  cases htm : truthyMsg c.message with
  | false => rfl
  | true =>
    rw [htm] at h
    have hcond : (truthyStr c.finish_reason && truthyStr (roleOf c) &&
        truthyStr (contentOf c)) = false := by
      cases hfr : truthyStr c.finish_reason <;>
        cases hro : truthyStr (roleOf c) <;>
          cases hco : truthyStr (contentOf c) <;>
            simp_all
    show (if (truthyStr c.finish_reason && truthyStr (roleOf c) &&
        truthyStr (contentOf c)) = true then
        match build_message ((roleOf c).getD "") ((contentOf c).getD "") with
        | Except.ok m =>
            Except.ok [ResponseItem.str (c.finish_reason.getD ""), ResponseItem.msg m]
        | Except.error e => Except.error e
      else Except.error
        (GptError.protocolException "missing or empty: finish_reason, role or content")) =
      Except.error (GptError.protocolException
        (if !true then "missing or empty message"
         else "missing or empty: finish_reason, role or content"))
    rw [hcond]
    rfl

/-- A non-defective choice whose nonempty role is unrecognized fails with
the ValueError of build_message, naming the role. -/
theorem processChoice_badRole (c : Choice) (hd : choiceDefect c = false)
    (hr : roleRecognized c = false) :
    processChoice c =
      Except.error (GptError.valueError ("Invalid role: " ++ (roleOf c).getD "")) := by
  obtain ⟨h1, h2, h3, h4⟩ := choiceDefect_false_truthy c hd
  unfold roleRecognized at hr
  simp only [Bool.or_eq_false_iff, beq_eq_false_iff_ne] at hr
  obtain ⟨⟨hs, hu⟩, ha⟩ := hr
  have hcond : (truthyStr c.finish_reason && truthyStr (roleOf c) &&
      truthyStr (contentOf c)) = true := by
    rw [h2, h3, h4]
    rfl
  have hb : build_message ((roleOf c).getD "") ((contentOf c).getD "") =
      Except.error (GptError.valueError ("Invalid role: " ++ (roleOf c).getD "")) := by
    simp [build_message, hs, hu, ha]
  unfold processChoice
  rw [h1, hcond, hb]
  rfl

/-- Classification of the failure of the per-choice loop on a list with a
defective choice, scanning in validation order past fully valid choices:
if the first failing choice fails on a missing or empty field, the loop
raises the ProtocolException naming that piece; if a choice carrying an
unrecognized nonempty role comes first, the loop raises its ValueError. -/
theorem processChoices_classified (cs : List Choice) (h : cs.any choiceDefect = true) :
    (firstFailureIsDefect cs = true →
      processChoices cs =
        Except.error (GptError.protocolException (firstChoiceFailureMessage cs))) ∧
    (firstFailureIsDefect cs = false →
      failsWithInvalidRole (processChoices cs) = true) := by
  induction cs with
  | nil => simp at h
  | cons c rest ih =>
    rw [List.any_cons, Bool.or_eq_true] at h
    cases hd : choiceDefect c with
    | true =>
      have hpc := processChoice_defect_message c hd
      have hff : firstFailureIsDefect (c :: rest) = true := by
        unfold firstFailureIsDefect
        rw [hd]
        rfl
      constructor
      · intro _
        show (match processChoice c with
          | Except.error e => Except.error e
          | Except.ok items =>
            match processChoices rest with
            | Except.error e => Except.error e
            | Except.ok restItems => Except.ok (items ++ restItems)) =
          Except.error (GptError.protocolException (firstChoiceFailureMessage (c :: rest)))
        rw [hpc]
        unfold firstChoiceFailureMessage
        cases htm : truthyMsg c.message
        · rfl
        · rw [hd]
          rfl
      · intro hff2
        rw [hff] at hff2
        cases hff2
    | false =>
      cases hr : roleRecognized c with
      | false =>
        have hpc := processChoice_badRole c hd hr
        have hff : firstFailureIsDefect (c :: rest) = false := by
          unfold firstFailureIsDefect
          rw [hd, hr]
          rfl
        constructor
        · intro hff2
          rw [hff] at hff2
          cases hff2
        · intro _
          show failsWithInvalidRole (match processChoice c with
            | Except.error e => Except.error e
            | Except.ok items =>
              match processChoices rest with
              | Except.error e => Except.error e
              | Except.ok restItems => Except.ok (items ++ restItems)) = true
          rw [hpc]
          rfl
      | true =>
        have hval := valid_of_not_defect c hd hr
        have hpc := processChoice_valid c hval
        have hrest : rest.any choiceDefect = true := by
          rcases h with hc | hrest2
          · rw [hd] at hc
            cases hc
          · exact hrest2
        have ihr := ih hrest
        have hffeq : firstFailureIsDefect (c :: rest) = firstFailureIsDefect rest := by
          show (if choiceDefect c then true
            else if roleRecognized c then firstFailureIsDefect rest else false) =
            firstFailureIsDefect rest
          rw [hd, hr]
          rfl
        have htm : truthyMsg c.message = true := (choiceDefect_false_truthy c hd).1
        have hmsgeq : firstChoiceFailureMessage (c :: rest) =
            firstChoiceFailureMessage rest := by
          show (if !truthyMsg c.message then "missing or empty message"
            else if choiceDefect c then "missing or empty: finish_reason, role or content"
            else firstChoiceFailureMessage rest) = firstChoiceFailureMessage rest
          rw [htm, hd]
          rfl
        constructor
        · intro hff2
          rw [hffeq] at hff2
          have hrest_eq := ihr.1 hff2
          show (match processChoice c with
            | Except.error e => Except.error e
            | Except.ok items =>
              match processChoices rest with
              | Except.error e => Except.error e
              | Except.ok restItems => Except.ok (items ++ restItems)) =
            Except.error (GptError.protocolException (firstChoiceFailureMessage (c :: rest)))
          rw [hpc, hrest_eq, hmsgeq]
        · intro hff2
          rw [hffeq] at hff2
          have hrest_bad := ihr.2 hff2
          show failsWithInvalidRole (match processChoice c with
            | Except.error e => Except.error e
            | Except.ok items =>
              match processChoices rest with
              | Except.error e => Except.error e
              | Except.ok restItems => Except.ok (items ++ restItems)) = true
          rw [hpc]
          cases hmr : processChoices rest with
          | error e =>
            rw [hmr] at hrest_bad
            exact hrest_bad
          | ok ys =>
            rw [hmr] at hrest_bad
            simp [failsWithInvalidRole] at hrest_bad

/-- C3 (amended): for every backend reply that is malformed in one of the
listed ways (choices absent or empty, a choice lacking its message
object, or a choice with absent or empty finish_reason, role or content),
the completion fails and no CompletionResult is returned; the failure is
the ProtocolException naming the first missing piece in validation order,
except that when a choice carrying an unrecognized nonempty role is
validated before the first missing or empty field is reached, the failure
is the InvalidRole-class ValueError of build_message instead. -/
theorem malformed_reply_fails (r : BackendReply) (h : malformedReply r = true) :
    exceptOk (decode_backend_reply r) = false ∧
    (firstMalformedIsField r = true →
      decode_backend_reply r =
        Except.error (GptError.protocolException (firstFailureMessage r))) ∧
    (firstMalformedIsField r = false →
      failsWithInvalidRole (decode_backend_reply r) = true) := by
  unfold malformedReply at h
  have hmain : (firstMalformedIsField r = true →
      decode_backend_reply r =
        Except.error (GptError.protocolException (firstFailureMessage r))) ∧
    (firstMalformedIsField r = false →
      failsWithInvalidRole (decode_backend_reply r) = true) := by
    unfold decode_backend_reply firstMalformedIsField firstFailureMessage
    cases hc : r.choices with
    | none => exact ⟨fun _ => rfl, fun hf => by cases hf⟩
    | some cs =>
      rw [hc] at h
      cases cs with
      | nil => exact ⟨fun _ => rfl, fun hf => by cases hf⟩
      | cons c rest =>
        have h2 : ((c :: rest).isEmpty || (c :: rest).any choiceDefect) = true := h
        have hany : (c :: rest).any choiceDefect = true := by simpa using h2
        have hclass := processChoices_classified (c :: rest) hany
        constructor
        · intro hfield
          have h3 : ((c :: rest).isEmpty || firstFailureIsDefect (c :: rest)) = true := hfield
          have hfd : firstFailureIsDefect (c :: rest) = true := by simpa using h3
          show (if (c :: rest).length > 0 then processChoices (c :: rest)
            else Except.error (GptError.protocolException "choices key missing or empty")) =
            Except.error (GptError.protocolException
              (if (c :: rest).isEmpty then "choices key missing or empty"
               else firstChoiceFailureMessage (c :: rest)))
          rw [if_pos (show (c :: rest).length > 0 by simp)]
          rw [hclass.1 hfd]
          rfl
        · intro hfield
          have h3 : ((c :: rest).isEmpty || firstFailureIsDefect (c :: rest)) = false := hfield
          have hfd : firstFailureIsDefect (c :: rest) = false := by simpa using h3
          show failsWithInvalidRole (if (c :: rest).length > 0 then processChoices (c :: rest)
            else Except.error (GptError.protocolException "choices key missing or empty")) = true
          rw [if_pos (show (c :: rest).length > 0 by simp)]
          exact hclass.2 hfd
  refine ⟨?_, hmain.1, hmain.2⟩
  cases hf : firstMalformedIsField r with
  | true =>
    rw [hmain.1 hf]
    rfl
  | false => exact invalid_role_not_ok _ (hmain.2 hf)

/-- Witness for C3 (amended): a reply lacking the choices key fails with
the ProtocolException naming the choices key, and the mixed reply whose
unrecognized-role choice precedes its message-lacking choice fails with
the InvalidRole ValueError. -/
theorem malformed_reply_fails_witness :
    decode_backend_reply ⟨none⟩ =
      Except.error (GptError.protocolException "choices key missing or empty") ∧
    failsWithInvalidRole (decode_backend_reply mixed_reply) = true :=
  ⟨(malformed_reply_fails ⟨none⟩ rfl).2.1 rfl,
   (malformed_reply_fails mixed_reply (by decide)).2.2 (by decide)⟩

/-- C3 counterexample: in a reply whose second choice lacks its message
object but whose first choice carries the unrecognized role robot, the
completion fails with the ValueError of build_message, not with a
ProtocolException, although the claimed antecedent (some choice lacks a
message object) holds. -/
theorem malformed_reply_class_counterexample :
    malformedReply mixed_reply = true ∧
    decode_backend_reply mixed_reply =
      Except.error (GptError.valueError "Invalid role: robot") ∧
    failsWithProtocol (decode_backend_reply mixed_reply) = false := by
  refine ⟨?_, ?_, ?_⟩ <;> decide

/-- If a requested name is not registered, the metadata comprehension
raises before returning anything. -/
theorem map_metadata_unregistered (args : List String) (n : String)
    (hmem : n ∈ args) (hnone : lookup_command n = none) :
    exceptOk (map_metadata args) = false := by
  induction args with
  | nil => cases hmem
  | cons a rest ih =>
    cases hmem with
    | head =>
      show exceptOk (match metadata_impl n with
        | Except.error e => Except.error e
        | Except.ok m =>
          match map_metadata rest with
          | Except.error e => Except.error e
          | Except.ok restJson => Except.ok (json_dumps_metadata m :: restJson)) = false
      unfold metadata_impl
      rw [hnone]
      rfl
    | tail _ hr =>
      have hrest := ih hr
      show exceptOk (match metadata_impl a with
        | Except.error e => Except.error e
        | Except.ok m =>
          match map_metadata rest with
          | Except.error e => Except.error e
          | Except.ok restJson => Except.ok (json_dumps_metadata m :: restJson)) = false
      cases hma : metadata_impl a with
      | error e => rfl
      | ok m =>
        cases hmr : map_metadata rest with
        | error e2 => rfl
        | ok xs =>
          rw [hmr] at hrest
          simp [exceptOk] at hrest

/-- If every requested name is registered, the metadata comprehension
returns one JSON description per name, in request order. -/
theorem map_metadata_all_registered (args : List String)
    (h : ∀ n ∈ args, (lookup_command n).isSome = true) :
    map_metadata args = Except.ok (args.map describeName) := by
  induction args with
  | nil => rfl
  | cons a rest ih =>
    have ha := h a (List.mem_cons_self a rest)
    have hrest := ih (fun n hn => h n (List.mem_cons_of_mem a hn))
    cases hma : lookup_command a with
    | none => rw [hma] at ha; cases ha
    | some e =>
      show (match metadata_impl a with
        | Except.error e => Except.error e
        | Except.ok m =>
          match map_metadata rest with
          | Except.error e => Except.error e
          | Except.ok restJson => Except.ok (json_dumps_metadata m :: restJson)) =
        Except.ok ((a :: rest).map describeName)
      unfold metadata_impl
      rw [hma, hrest]
      show Except.ok (json_dumps_metadata e.metadata :: rest.map describeName) = _
      rw [List.map_cons]
      unfold describeName
      rw [hma]
      rfl

/-- The reply to a metadata request is determined by the handler result:
success replies carry the JSON strings, an UnknownCommandException is
answered with the dedicated code, every other error with the
uncategorised code and its message. -/
theorem replyFor_metadata (backend : Backend) (args : List String) :
    replyFor backend ("metadata" :: args) =
      match metadata args with
      | Except.ok results => Reply.ok results
      | Except.error (GptError.unknownCommand _) =>
          Reply.error ErrorCode.UNKNOWN_COMMAND "unknown command"
      | Except.error e => Reply.error ErrorCode.UNCATEGORISED e.message := rfl

/-- C9: the metadata command is answered with an error reply (never a
success reply) whenever it is given zero names (Scenario 4) and whenever
any given name is not a registered command; when every name is registered
it succeeds with one JSON-encoded description-and-timeout string per
name, in the same order as the names. -/
theorem metadata_command_behaviour :
    (∀ backend : Backend, replyFor backend ["metadata"] =
      Reply.error ErrorCode.UNCATEGORISED "Expected one or more commands as arguments") ∧
    (∀ (args : List String) (n : String), n ∈ args → lookup_command n = none →
      exceptOk (metadata args) = false ∧
      ∀ backend : Backend, (replyFor backend ("metadata" :: args)).isError = true) ∧
    (∀ args : List String, args ≠ [] →
      (∀ n ∈ args, (lookup_command n).isSome = true) →
      metadata args = Except.ok (args.map describeName) ∧
      ∀ backend : Backend, replyFor backend ("metadata" :: args) =
        Reply.ok (args.map describeName)) := by
  refine ⟨fun backend => rfl, ?_, ?_⟩
  · intro args n hmem hnone
    have hfail : exceptOk (metadata args) = false := by
      cases args with
      | nil => cases hmem
      | cons a rest =>
        show exceptOk (if (a :: rest).length > 0 then map_metadata (a :: rest)
          else Except.error (GptError.valueError "Expected one or more commands as arguments")) = false
        rw [if_pos (show (a :: rest).length > 0 by simp)]
        exact map_metadata_unregistered (a :: rest) n hmem hnone
    refine ⟨hfail, fun backend => ?_⟩
    rw [replyFor_metadata]
    cases hm : metadata args with
    | ok xs => rw [hm] at hfail; simp [exceptOk] at hfail
    | error e => cases e <;> rfl
  · intro args hne hall
    have hok : metadata args = Except.ok (args.map describeName) := by
      cases args with
      | nil => exact absurd rfl hne
      | cons a rest =>
        show (if (a :: rest).length > 0 then map_metadata (a :: rest)
          else Except.error (GptError.valueError "Expected one or more commands as arguments")) =
          Except.ok ((a :: rest).map describeName)
        rw [if_pos (show (a :: rest).length > 0 by simp)]
        exact map_metadata_all_registered (a :: rest) hall
    refine ⟨hok, fun backend => ?_⟩
    rw [replyFor_metadata, hok]

/-- Witness for C9 at the unregistered name bogus and at the registered
names help and send. -/
theorem metadata_command_behaviour_witness :
    (replyFor backend0 ["metadata", "bogus"]).isError = true ∧
    replyFor backend0 ["metadata", "help", "send"] =
      Reply.ok (["help", "send"].map describeName) :=
  ⟨(metadata_command_behaviour.2.1 ["bogus"] "bogus" (by decide) (by decide)).2 backend0,
   (metadata_command_behaviour.2.2 ["help", "send"] (by decide) (by decide)).2 backend0⟩

end Gpt
